import Mathlib

/-!
Verification of the scroll-reveal animation behaviour of the PalTextAI
landing page. The page sections (Hero, Features, HowItWorks, Advantages,
Pricing, Team) each observe their own visibility with
useInView and, once in view, animate a heading and a staggered group of
child items from a hidden pose (opacity 0, y offset 20) to a visible pose
(opacity 1, y 0), each child delayed by index * 0.2. The Navbar keeps a
single boolean menu state, and the Footer holds static link tables. The
definitions below are shallow embeddings of those source fragments; time
quantities and thresholds are modelled as rationals.
-/

namespace PalLanding

/-- A visual pose of an element, as given by the initial / animate props of
a motion element: an opacity and a vertical offset y. -/
structure VisualState where
  opacity : ℚ
  y : ℚ
deriving DecidableEq

/-- The hidden rest pose every animated element starts from:
opacity 0, y 20 (the initial prop in every section). -/
def hiddenState : VisualState := ⟨0, 20⟩

/-- The final visible pose: opacity 1, y 0 (the animate prop when the
section is in view). -/
def visibleState : VisualState := ⟨1, 0⟩

/-- The transition prop of a motion element: an optional duration and an
optional delay. A field is none when the source omits it. -/
structure Transition where
  duration : Option ℚ
  delay : Option ℚ
deriving DecidableEq

/-- Advantages child item i: transition delay index * 0.2, no duration. -/
def advantagesChildTransition (index : ℕ) : Transition :=
  ⟨none, some ((index : ℚ) * 0.2)⟩

/-- HowItWorks child item i: transition delay index * 0.2, no duration. -/
def howItWorksChildTransition (index : ℕ) : Transition :=
  ⟨none, some ((index : ℚ) * 0.2)⟩

/-- Pricing child item i: transition duration 0.8, delay index * 0.2. -/
def pricingChildTransition (index : ℕ) : Transition :=
  ⟨some 0.8, some ((index : ℚ) * 0.2)⟩

/-- Team child item i: transition duration 0.8, delay index * 0.2. -/
def teamChildTransition (index : ℕ) : Transition :=
  ⟨some 0.8, some ((index : ℚ) * 0.2)⟩

/-- Hero heading block: transition duration 0.8, no delay. -/
def heroHeadingTransition : Transition := ⟨some 0.8, none⟩

/-- Features heading block: transition duration 0.8, no delay. -/
def featuresHeadingTransition : Transition := ⟨some 0.8, none⟩

/-- Pricing heading block: transition duration 0.8, no delay. -/
def pricingHeadingTransition : Transition := ⟨some 0.8, none⟩

/-- Team heading block: transition duration 0.8, no delay. -/
def teamHeadingTransition : Transition := ⟨some 0.8, none⟩

/-- Advantages heading block: the motion.div carries no transition prop. -/
def advantagesHeadingTransition : Transition := ⟨none, none⟩

/-- HowItWorks heading block: the motion.div carries no transition prop. -/
def howItWorksHeadingTransition : Transition := ⟨none, none⟩

/-- Features itemVariants, visible branch: transition duration 0.8. -/
def featuresItemTransition : Transition := ⟨some 0.8, none⟩

/-- Features itemVariants, hidden branch: y 20, opacity 0. -/
def featuresItemHidden : VisualState := ⟨0, 20⟩

/-- Features containerVariants, visible branch: staggerChildren 0.2. -/
def featuresStaggerChildren : ℚ := 0.2

/-- The per-item stagger delay of a group with stagger unit d: item i is
delayed by i * d (the source computes delay as index * 0.2). -/
def staggerDelay (d : ℚ) (i : ℕ) : ℚ := (i : ℚ) * d

/-- The delays of a stagger group of N items with unit d, in index order. -/
def staggerDelays (d : ℚ) (N : ℕ) : List ℚ :=
  (List.range N).map (staggerDelay d)

/-- Visibility state of a reveal target. -/
inductive Visibility
  | notObserved
  | offScreen
  | inView
deriving DecidableEq

/-- The options passed to useInView by a section. -/
structure RevealConfig where
  triggerOnce : Bool
  threshold : ℚ
deriving DecidableEq

/-- Hero: useInView with triggerOnce true, threshold 0.1. -/
def heroConfig : RevealConfig := ⟨true, 0.1⟩

/-- Features: useInView with triggerOnce true, threshold 0.1. -/
def featuresConfig : RevealConfig := ⟨true, 0.1⟩

/-- HowItWorks: useInView with triggerOnce true, threshold 0.1. -/
def howItWorksConfig : RevealConfig := ⟨true, 0.1⟩

/-- Advantages: useInView with triggerOnce true, threshold 0.1. -/
def advantagesConfig : RevealConfig := ⟨true, 0.1⟩

/-- Pricing: useInView with triggerOnce true, threshold 0.1. -/
def pricingConfig : RevealConfig := ⟨true, 0.1⟩

/-- Team: useInView with triggerOnce true, threshold 0.1. -/
def teamConfig : RevealConfig := ⟨true, 0.1⟩

/-- Every useInView call site in the repository, in page order. -/
def allRevealConfigs : List RevealConfig :=
  [heroConfig, featuresConfig, howItWorksConfig,
   advantagesConfig, pricingConfig, teamConfig]

/-- The animation plan of a motion element: where it animates from and to,
with the optional duration and the delay of its transition prop. -/
structure AnimationPlan where
  fromState : VisualState
  toState : VisualState
  durationUnits : Option ℚ
  delayUnits : ℚ
deriving DecidableEq

/-- The entrance animation computed by the repeated source pattern
initial hidden / animate (inView then visible else empty) with a given
transition prop: when the element is not in view the animate prop is the
empty object, so the element holds its initial hidden pose. -/
def computeEntranceAnimation (v : Visibility) (t : Transition) : AnimationPlan :=
  { fromState := hiddenState
    toState := if v = Visibility.inView then visibleState else hiddenState
    durationUnits := t.duration
    delayUnits := t.delay.getD 0 }

/-- The footer link table: category names paired with their entries. A JS
array hole (the elided element before Terms of Service in Resources) is
embedded as none; named entries are some. -/
def footerLinks : List (String × List (Option String)) :=
  [("Product", [some "Features", some "Pricing",
                some "Documentation", some "API Reference"]),
   ("Company", [some "About Us", some "Contact"]),
   ("Resources", [none, some "Terms of Service"]),
   ("Legal", [some "Privacy Policy", some "Terms of Use",
              some "Cookie Policy"])]

/-- Rendering a footer column maps over the link array: Array.prototype.map
skips holes, so the rendered items are the present entries in order. -/
def renderFooterColumn (links : List (Option String)) : List String :=
  links.filterMap id

/-- Navbar.scrollToSection, modelling the document as the list of section
ids that exist: if isExternal it returns at once; otherwise, only when
getElementById finds the section does it close the menu and scroll.
Result: the new isOpen flag and the id scrolled to, if any. -/
def scrollToSection (doc : List String) (isOpen : Bool)
    (sectionId : String) (isExternal : Bool) : Bool × Option String :=
  if isExternal then (isOpen, none)
  else if sectionId ∈ doc then (false, some sectionId)
  else (isOpen, none)

/-- The onClick of the mobile-menu external Docs link: setIsOpen false. -/
def mobileExternalLinkClick (_isOpen : Bool) : Bool := false

/-- The onClick of the mobile-menu Get Started link: setIsOpen false. -/
def mobileGetStartedClick (_isOpen : Bool) : Bool := false

/-- Modelled from the spec: a notification from the layout surface, saying
the observed region now intersects the viewport above the threshold
(enters) or no longer does (leaves). The intersection watcher itself lives
in the reveal library, outside this repository's sources. -/
inductive LayoutNote
  | enters
  | leaves
deriving DecidableEq

/-- Modelled from the spec: one visibility update of a reveal target on a
layout notification. With triggerOnce, once the state is inView it is
latched and later notifications are ignored; otherwise the state follows
the notification. -/
def stepVisibility (cfg : RevealConfig) (s : Visibility)
    (n : LayoutNote) : Visibility :=
  if cfg.triggerOnce = true ∧ s = Visibility.inView then Visibility.inView
  else
    match n with
    | LayoutNote.enters => Visibility.inView
    | LayoutNote.leaves => Visibility.offScreen

/-- Modelled from the spec: the visibility reached after a sequence of
layout notifications, starting from a given state. -/
def runVisibility (cfg : RevealConfig) (s : Visibility)
    (ns : List LayoutNote) : Visibility :=
  ns.foldl (stepVisibility cfg) s

/-- The position of a visibility state along the monotonic chain
notObserved, offScreen, inView. -/
def visibilityRank : Visibility → ℕ
  | Visibility.notObserved => 0
  | Visibility.offScreen => 1
  | Visibility.inView => 2

/-- Modelled from the spec: the target handed to observe, carrying only
whether it is still mounted in the display tree. The observe entry point
is supplied by the reveal library, not by this repository's sources. -/
structure RevealTarget where
  mounted : Bool
deriving DecidableEq

/-- Modelled from the spec: the one defined error kind of the orchestrator. -/
inductive ObserveError
  | invalidTarget
deriving DecidableEq

/-- Modelled from the spec: observe registers a mounted target and starts
it at notObserved; on an unmounted target it fails synchronously with
invalidTarget. -/
def observe (t : RevealTarget) (_cfg : RevealConfig) :
    Except ObserveError Visibility :=
  if t.mounted = true then Except.ok Visibility.notObserved
  else Except.error ObserveError.invalidTarget

/-- Modelled from the spec: when observe fails, the affected section is
rendered in its final resting visual state, without the entrance
transition. -/
def renderOnObserveFailure : VisualState := visibleState

/-- Once a target latched by triggerOnce is in view, every later layout
notification leaves it in view. -/
lemma runVisibility_inView_latch (th : ℚ) (ns : List LayoutNote) :
    runVisibility ⟨true, th⟩ Visibility.inView ns = Visibility.inView := by
  induction ns with
  | nil => rfl
  | cons n ns ih =>
      have hstep : stepVisibility ⟨true, th⟩ Visibility.inView n =
          Visibility.inView := by
        simp [stepVisibility]
      simpa [runVisibility, hstep] using ih

/-- Claim C1: in a stagger group of N items with unit d, the delays are
exactly 0, d, 2d, ..., (N-1)d in index order; with d nonnegative they are
non-decreasing in index, and distinct indices get distinct delays unless
d = 0; in the code each grouped section computes a child's delay as
index * 0.2. -/
theorem C1_stagger_delays (d : ℚ) (N : ℕ) (hd : 0 ≤ d) :
    (staggerDelays d N).length = N ∧
    (∀ i, i < N → (staggerDelays d N).getD i 0 = (i : ℚ) * d) ∧
    (∀ i j : ℕ, i ≤ j → staggerDelay d i ≤ staggerDelay d j) ∧
    (d ≠ 0 → ∀ i j : ℕ, i ≠ j → staggerDelay d i ≠ staggerDelay d j) ∧
    (∀ i, (advantagesChildTransition i).delay = some (staggerDelay 0.2 i)) ∧
    (∀ i, (howItWorksChildTransition i).delay = some (staggerDelay 0.2 i)) := by
  refine ⟨by simp [staggerDelays], ?_, ?_, ?_, fun i => rfl, fun i => rfl⟩
  · intro i hi
    have hlen : i < ((List.range N).map (staggerDelay d)).length := by
      simpa using hi
    rw [staggerDelays, List.getD_eq_getElem _ _ hlen]
    simp [staggerDelay]
  · intro i j hij
    have hc : (i : ℚ) ≤ (j : ℚ) := by exact_mod_cast hij
    exact mul_le_mul_of_nonneg_right hc hd
  · intro hd0 i j hij hEq
    apply hij
    have hc : (i : ℚ) = (j : ℚ) := mul_right_cancel₀ hd0 hEq
    exact_mod_cast hc

/-- Witness for C1 at the concrete code values d = 0.2, N = 5. -/
theorem C1_stagger_delays_witness :
    (0 : ℚ) ≤ 0.2 ∧
    ((staggerDelays 0.2 5).length = 5 ∧
     (∀ i, i < 5 → (staggerDelays 0.2 5).getD i 0 = (i : ℚ) * 0.2) ∧
     (∀ i j : ℕ, i ≤ j → staggerDelay 0.2 i ≤ staggerDelay 0.2 j) ∧
     ((0.2 : ℚ) ≠ 0 → ∀ i j : ℕ, i ≠ j →
        staggerDelay 0.2 i ≠ staggerDelay 0.2 j) ∧
     (∀ i, (advantagesChildTransition i).delay = some (staggerDelay 0.2 i)) ∧
     (∀ i, (howItWorksChildTransition i).delay = some (staggerDelay 0.2 i))) :=
  ⟨by norm_num, C1_stagger_delays 0.2 5 (by norm_num)⟩

/-- Claim C2: with a triggerOnce config, once a target is in view it stays
in view under every sequence of layout notifications and its plan keeps
the visible target state; under triggerOnce the rank along the chain
notObserved, offScreen, inView never decreases and notObserved is never
re-entered; without triggerOnce the state can oscillate between offScreen
and inView. -/
theorem C2_triggerOnce_latching (th : ℚ) (ns : List LayoutNote)
    (t : Transition) :
    runVisibility ⟨true, th⟩ Visibility.inView ns = Visibility.inView ∧
    (computeEntranceAnimation
      (runVisibility ⟨true, th⟩ Visibility.inView ns) t).toState =
        visibleState ∧
    (∀ s n, visibilityRank s ≤
      visibilityRank (stepVisibility ⟨true, th⟩ s n)) ∧
    (∀ cfg s n, stepVisibility cfg s n ≠ Visibility.notObserved) ∧
    stepVisibility ⟨false, th⟩ Visibility.inView LayoutNote.leaves =
      Visibility.offScreen ∧
    stepVisibility ⟨false, th⟩ Visibility.offScreen LayoutNote.enters =
      Visibility.inView := by
  refine ⟨runVisibility_inView_latch th ns, ?_, ?_, ?_, ?_, ?_⟩
  · rw [runVisibility_inView_latch th ns]
    simp [computeEntranceAnimation]
  · intro s n
    cases s <;> cases n <;> simp [stepVisibility, visibilityRank]
  · intro cfg s n
    unfold stepVisibility
    split
    · simp
    · cases n <;> simp
  · simp [stepVisibility]
  · simp [stepVisibility]

/-- Claim C3: computeEntranceAnimation is deterministic: two calls with
identical inputs produce identical plans. -/
theorem C3_pure_deterministic (v v2 : Visibility) (t t2 : Transition)
    (hv : v = v2) (ht : t = t2) :
    computeEntranceAnimation v t = computeEntranceAnimation v2 t2 := by
  rw [hv, ht]

/-- Witness for C3 at a concrete input. -/
theorem C3_pure_deterministic_witness :
    computeEntranceAnimation Visibility.inView heroHeadingTransition =
      computeEntranceAnimation Visibility.inView heroHeadingTransition :=
  C3_pure_deterministic Visibility.inView Visibility.inView
    heroHeadingTransition heroHeadingTransition rfl rfl

/-- Counterexample for C4: the in-view plan of the first Advantages child
carries no duration at all, so its durationUnits is not the fixed 0.8
constant the claim asserts for every plan. -/
theorem C4_counterexample :
    (computeEntranceAnimation Visibility.inView
      (advantagesChildTransition 0)).durationUnits ≠ some (0.8 : ℚ) := by
  simp [computeEntranceAnimation, advantagesChildTransition]

/-- Claim C4 as amended: every grouped child's in-view plan has
delayUnits = index * 0.2; durationUnits is 0.8 exactly where the code
passes it (Hero, Features, Pricing and Team), while the Advantages and
HowItWorks headings and children pass no duration, leaving durationUnits
unset. -/
theorem C4_durations_amended (i : ℕ) :
    (computeEntranceAnimation Visibility.inView
      (pricingChildTransition i)).durationUnits = some 0.8 ∧
    (computeEntranceAnimation Visibility.inView
      (pricingChildTransition i)).delayUnits = (i : ℚ) * 0.2 ∧
    (computeEntranceAnimation Visibility.inView
      (teamChildTransition i)).durationUnits = some 0.8 ∧
    (computeEntranceAnimation Visibility.inView
      (teamChildTransition i)).delayUnits = (i : ℚ) * 0.2 ∧
    (computeEntranceAnimation Visibility.inView
      (advantagesChildTransition i)).durationUnits = none ∧
    (computeEntranceAnimation Visibility.inView
      (advantagesChildTransition i)).delayUnits = (i : ℚ) * 0.2 ∧
    (computeEntranceAnimation Visibility.inView
      (howItWorksChildTransition i)).durationUnits = none ∧
    (computeEntranceAnimation Visibility.inView
      (howItWorksChildTransition i)).delayUnits = (i : ℚ) * 0.2 ∧
    heroHeadingTransition.duration = some 0.8 ∧
    featuresHeadingTransition.duration = some 0.8 ∧
    pricingHeadingTransition.duration = some 0.8 ∧
    teamHeadingTransition.duration = some 0.8 ∧
    featuresItemTransition.duration = some 0.8 ∧
    advantagesHeadingTransition.duration = none ∧
    howItWorksHeadingTransition.duration = none ∧
    (computeEntranceAnimation Visibility.inView
      (advantagesChildTransition i)).toState = visibleState := by
  refine ⟨rfl, rfl, rfl, rfl, rfl, rfl, rfl, rfl, rfl, rfl, rfl, rfl, rfl,
    rfl, rfl, ?_⟩
  simp [computeEntranceAnimation]

/-- Claim C5: when visibility is notObserved or offScreen the computed
plan's target state is the initial hidden pose, opacity 0 with y offset
20 — the element just holds its rest pose; the Features itemVariants
hidden branch is that same pose. -/
theorem C5_rest_pose (v : Visibility) (t : Transition)
    (h : v = Visibility.notObserved ∨ v = Visibility.offScreen) :
    (computeEntranceAnimation v t).toState = hiddenState ∧
    hiddenState = ⟨0, 20⟩ ∧ featuresItemHidden = hiddenState := by
  refine ⟨?_, rfl, rfl⟩
  rcases h with h | h <;> subst h <;> simp [computeEntranceAnimation]

/-- Witness for C5 at visibility offScreen. -/
theorem C5_rest_pose_witness :
    (Visibility.offScreen = Visibility.notObserved ∨
     Visibility.offScreen = Visibility.offScreen) ∧
    ((computeEntranceAnimation Visibility.offScreen
        heroHeadingTransition).toState = hiddenState ∧
     hiddenState = ⟨0, 20⟩ ∧ featuresItemHidden = hiddenState) :=
  ⟨Or.inr rfl,
   C5_rest_pose Visibility.offScreen heroHeadingTransition (Or.inr rfl)⟩

/-- Claim C6: observe on an unmounted target fails synchronously with
invalidTarget, the only error kind there is, and on failure the section
renders its final resting state, not the hidden one. -/
theorem C6_invalid_target (t : RevealTarget) (cfg : RevealConfig)
    (h : t.mounted = false) :
    observe t cfg = Except.error ObserveError.invalidTarget ∧
    (∀ e : ObserveError, e = ObserveError.invalidTarget) ∧
    renderOnObserveFailure = visibleState ∧
    renderOnObserveFailure ≠ hiddenState := by
  refine ⟨?_, ?_, rfl, ?_⟩
  · simp [observe, h]
  · intro e; cases e; rfl
  · simp [renderOnObserveFailure, visibleState, hiddenState]

/-- Witness for C6 on a concrete unmounted target. -/
theorem C6_invalid_target_witness :
    (RevealTarget.mk false).mounted = false ∧
    (observe ⟨false⟩ heroConfig =
        Except.error ObserveError.invalidTarget ∧
     (∀ e : ObserveError, e = ObserveError.invalidTarget) ∧
     renderOnObserveFailure = visibleState ∧
     renderOnObserveFailure ≠ hiddenState) :=
  ⟨rfl, C6_invalid_target ⟨false⟩ heroConfig rfl⟩

/-- Claim C7: the Resources footer category is a two-slot array with a
hole at index 0, and rendering it yields exactly the one link Terms of
Service, while Product, Company and Legal render one item per entry. -/
theorem C7_footer_hole :
    footerLinks.lookup "Resources" =
      some [none, some "Terms of Service"] ∧
    ((footerLinks.lookup "Resources").getD []).length = 2 ∧
    ((footerLinks.lookup "Resources").getD []).getD 0 (some "") = none ∧
    renderFooterColumn ((footerLinks.lookup "Resources").getD []) =
      ["Terms of Service"] ∧
    renderFooterColumn ((footerLinks.lookup "Product").getD []) =
      ["Features", "Pricing", "Documentation", "API Reference"] ∧
    renderFooterColumn ((footerLinks.lookup "Company").getD []) =
      ["About Us", "Contact"] ∧
    renderFooterColumn ((footerLinks.lookup "Legal").getD []) =
      ["Privacy Policy", "Terms of Use", "Cookie Policy"] := by
  refine ⟨rfl, rfl, rfl, rfl, rfl, rfl, rfl⟩

/-- Claim C8: navigating to an existing in-page section closes the menu,
and the mobile-menu external and Get Started links close it on click. -/
theorem C8_menu_closed_on_navigation (doc : List String) (isOpen : Bool)
    (sectionId : String) (h : sectionId ∈ doc) :
    (scrollToSection doc isOpen sectionId false).1 = false ∧
    (∀ b, mobileExternalLinkClick b = false) ∧
    (∀ b, mobileGetStartedClick b = false) := by
  refine ⟨?_, fun b => rfl, fun b => rfl⟩
  simp [scrollToSection, h]

/-- Witness for C8 on a document containing the hero section. -/
theorem C8_menu_closed_on_navigation_witness :
    "hero" ∈ ["hero", "features"] ∧
    ((scrollToSection ["hero", "features"] true "hero" false).1 = false ∧
     (∀ b, mobileExternalLinkClick b = false) ∧
     (∀ b, mobileGetStartedClick b = false)) :=
  ⟨by decide,
   C8_menu_closed_on_navigation ["hero", "features"] true "hero"
     (by decide)⟩

/-- Claim C9: every useInView call site uses triggerOnce true and
threshold 0.1: the six configs are identical. -/
theorem C9_uniform_configs :
    heroConfig = ⟨true, 0.1⟩ ∧ featuresConfig = ⟨true, 0.1⟩ ∧
    howItWorksConfig = ⟨true, 0.1⟩ ∧ advantagesConfig = ⟨true, 0.1⟩ ∧
    pricingConfig = ⟨true, 0.1⟩ ∧ teamConfig = ⟨true, 0.1⟩ ∧
    allRevealConfigs = List.replicate 6 ⟨true, 0.1⟩ :=
  ⟨rfl, rfl, rfl, rfl, rfl, rfl, rfl⟩

/-- Claim C10: scrollToSection leaves the menu state unchanged on every
non-navigating path: an external item returns at once, a missing section
changes nothing, and isOpen only ever changes to false, and only when the
section exists. -/
theorem C10_scroll_frame (doc : List String) (isOpen : Bool)
    (sectionId : String) :
    scrollToSection doc isOpen sectionId true = (isOpen, none) ∧
    (sectionId ∉ doc →
      scrollToSection doc isOpen sectionId false = (isOpen, none)) ∧
    (∀ isExternal : Bool,
      (scrollToSection doc isOpen sectionId isExternal).1 ≠ isOpen →
      isExternal = false ∧ sectionId ∈ doc ∧
      (scrollToSection doc isOpen sectionId isExternal).1 = false) := by
  refine ⟨by simp [scrollToSection], ?_, ?_⟩
  · intro h
    simp [scrollToSection, h]
  · intro ext hne
    cases ext with
    | false =>
        by_cases hm : sectionId ∈ doc
        · exact ⟨rfl, hm, by simp [scrollToSection, hm]⟩
        · exact absurd (by simp [scrollToSection, hm]) hne
    | true => exact absurd (by simp [scrollToSection]) hne

/-- Witness for C10 on a document without the requested section. -/
theorem C10_scroll_frame_witness :
    scrollToSection ["hero"] true "docs" true = (true, none) ∧
    scrollToSection ["hero"] true "docs" false = (true, none) :=
  ⟨(C10_scroll_frame ["hero"] true "docs").1,
   (C10_scroll_frame ["hero"] true "docs").2.1 (by decide)⟩

end PalLanding
